import Mathlib

/-!
Shallow embedding of `homeops_mcp/adapters/network_adapter.py`: the
network-diagnostics adapter (ping, DNS lookup, traceroute).

Python strings are modelled as Lean `String`/`List Char`; JSON-like result
dicts as structures with `Option` fields for keys that may be absent;
floating-point values produced by `float(...)` on decimal literals as `ℚ`
(all numbers involved are short decimal strings, represented exactly);
`asyncio` subprocess execution and `socket.getaddrinfo` as explicit outcome
parameters (`ExecOutcome`, `ResolveOutcome`) supplied by the environment;
`raise HTTPException` as `Except.error`.

The regular expressions of the source are embedded as deterministic
matching functions that return the captured groups as character lists,
with `int(...)` / `float(...)` conversions applied at the call sites, as
in the source.  Each embedding follows the backtracking semantics of
Python `re` on the concrete pattern; where greedy/lazy quantifier
behaviour makes part of a pattern deterministic, the accompanying comment
records the argument.
-/

set_option maxRecDepth 8000

/-- Model of `fastapi.HTTPException` as raised by `_validate_host`. -/
structure HTTPException where
  status_code : Nat
  detail : String
  deriving DecidableEq

/-- Outcome of one external-process invocation
(`asyncio.create_subprocess_exec` + `wait_for`): the decoded stdout on
success, `timeout` for `asyncio.TimeoutError`, `failure` for any other
exception. -/
inductive ExecOutcome where
  | success (stdout : String)
  | timeout
  | failure
  deriving DecidableEq

/-- Outcome of one `socket.getaddrinfo` call (run in an executor, with the
address family chosen from `record_type`): the list of resolved address
strings (`info[4][0]` for each entry, in resolver order, duplicates
possible), or `socket.gaierror` with a message. -/
inductive ResolveOutcome where
  | success (addrs : List String)
  | gaierror (msg : String)
  deriving DecidableEq

/-- Result dict of `ping` / `_parse_ping_output` / `_mock_ping`. -/
structure PingResult where
  host : String
  packets_sent : Nat
  packets_received : Nat
  packet_loss_percent : ℚ
  avg_latency_ms : ℚ
  min_latency_ms : ℚ
  max_latency_ms : ℚ
  deriving DecidableEq

/-- One hop entry of a traceroute result; `latency_ms` is `none` when the
`"latency_ms"` key is absent from the dict. -/
structure Hop where
  hop : Nat
  ip : String
  latency_ms : Option ℚ
  deriving DecidableEq

/-- Result dict of `traceroute`; `error` is `none` when the `"error"` key
is absent. -/
structure TracerouteResult where
  host : String
  max_hops : Nat
  hops : List Hop
  error : Option String
  deriving DecidableEq

/-- Result dict of `dns_lookup`; `error` is `none` when the `"error"` key
is absent. -/
structure DnsResult where
  hostname : String
  record_type : String
  addresses : List String
  error : Option String
  deriving DecidableEq

/-- The character class `[a-zA-Z0-9._-]` of `_VALID_HOST_RE`
(`Char.isAlpha`/`Char.isDigit` are exactly the ASCII ranges). -/
def isAllowedHostChar (c : Char) : Bool :=
  c.isAlpha || c.isDigit || c = '.' || c = '_' || c = '-'

/-- `re.match(r"^[a-zA-Z0-9._-]+$", s)` viewed as a Boolean.

Python semantics: `[...]+` is greedy, so it consumes the maximal prefix
run of allowed characters; backtracking to a shorter run never helps,
because `$` (without `re.MULTILINE`) succeeds only at the end of the
string or just before a trailing `'\n'`, and every earlier position is
followed by an allowed character (which `'\n'` is not).  Hence the match
succeeds iff the maximal allowed run is non-empty and the remainder is
empty or exactly `"\n"`. -/
def validHostMatch (s : String) : Bool :=
  let run := s.data.takeWhile isAllowedHostChar
  let rest := s.data.dropWhile isAllowedHostChar
  !run.isEmpty && (rest.isEmpty || rest = ['\n'])

/-- The detail string of the 400 response raised by `_validate_host`. -/
def invalidHostDetail : String :=
  "Invalid host. Only alphanumeric characters, dots, hyphens, and underscores are allowed."

/-- The `HTTPException(status_code=400, detail=...)` value raised by
`_validate_host`. -/
def invalidHostError : HTTPException :=
  { status_code := 400, detail := invalidHostDetail }

/-- `_validate_host`: `none` when the host passes, `some e` for the
raised `HTTPException`. -/
def _validate_host (host : String) : Option HTTPException :=
  if validHostMatch host then none else some invalidHostError

/-- The ASCII core of Python `\s` (`[ \t\n\r\f\v]`). -/
def pyIsSpace (c : Char) : Bool :=
  c = ' ' || c = '\t' || c = '\n' || c = '\r' || c = '\x0b' || c = '\x0c'

/-- Value of a digit run, as read by Python `int(...)`. -/
def natOfDigits (ds : List Char) : Nat :=
  ds.foldl (fun a c => 10 * a + (c.toNat - 48)) 0

/-- Value of `float("<d>.<f>")` / `float("<d>")` on the digit runs
captured by a `(\d+(?:\.\d+)?)` group. -/
def decVal (d : List Char) (f : Option (List Char)) : ℚ :=
  (natOfDigits d : ℚ) +
    (match f with
     | some fd => (natOfDigits fd : ℚ) / (10 : ℚ) ^ fd.length
     | none => 0)

/-- Match the literal character sequence `lit` at the head of `l`,
returning the remainder. -/
def dropLit : List Char → List Char → Option (List Char)
  | [], l => some l
  | _ :: _, [] => none
  | c :: cs, d :: ds => if c = d then dropLit cs ds else none

/-- Match `(\d+(?:\.\d+)?)` at the head of `l`: the greedy integer-digit
run, the optional greedy fraction (taken only when a `'.'` followed by a
digit is present), and the remainder.

In every context this pattern appears in the source (followed by `'/'`,
by `"% packet loss"`, or by `\s*ms`), backtracking of Python `re` to a
shorter digit run or to the no-fraction branch can never turn a failure
of the following sub-pattern into a success: shrinking a digit run leaves
a digit at the next position, and dropping a taken fraction leaves a
`'.'` there, while the follow sub-patterns start with `'/'`, `'%'`, or
`\s*m`.  The greedy-only reading below is therefore faithful. -/
def numAt (l : List Char) : Option ((List Char × Option (List Char)) × List Char) :=
  let d := l.takeWhile Char.isDigit
  let r := l.dropWhile Char.isDigit
  if d.isEmpty then none
  else
    match r with
    | '.' :: r2 =>
      let f := r2.takeWhile Char.isDigit
      if f.isEmpty then some ((d, none), r)
      else some ((d, some f), r2.dropWhile Char.isDigit)
    | _ => some ((d, none), r)

/-- Match `(\d+(?:\.\d+)?)% packet loss` at the head of `l`, returning
the captured decimal. -/
def lossSuffixAt (l : List Char) : Option (List Char × Option (List Char)) :=
  match numAt l with
  | none => none
  | some (cap, r) =>
    match dropLit ("% packet loss".data) r with
    | some _ => some cap
    | none => none

/-- The `.*?(\d+(?:\.\d+)?)% packet loss` tail of the packet-loss
pattern: the lazy `.*?` expands one character at a time, trying
`lossSuffixAt` at each position, and it cannot expand over a newline
(`.` does not match `'\n'` without `re.DOTALL`). -/
def scanLossTail : List Char → Option (List Char × Option (List Char))
  | [] => none
  | c :: rest =>
    match lossSuffixAt (c :: rest) with
    | some v => some v
    | none => if c = '\n' then none else scanLossTail rest

/-- Match `(?:packets )?received` at the head of `l`: the greedy optional
group tries `"packets "` first and backtracks to omitting it. -/
def recvAfter (l : List Char) : Option (List Char) :=
  match dropLit ("packets ".data) l with
  | some l1 =>
    match dropLit ("received".data) l1 with
    | some l2 => some l2
    | none => dropLit ("received".data) l
  | none => dropLit ("received".data) l

/-- Match the whole packet-loss pattern
`(\d+) packets transmitted, (\d+) (?:packets )?received.*?(\d+(?:\.\d+)?)% packet loss`
anchored at the head of `l`, returning the three captures.  Shrinking
either `(\d+)` cannot help (the following literal starts with a space),
so the digit runs are the maximal ones. -/
def lossAt (l : List Char) : Option (List Char × List Char × List Char × Option (List Char)) :=
  let d1 := l.takeWhile Char.isDigit
  if d1.isEmpty then none
  else
    match dropLit (" packets transmitted, ".data) (l.dropWhile Char.isDigit) with
    | none => none
    | some l1 =>
      let d2 := l1.takeWhile Char.isDigit
      if d2.isEmpty then none
      else
        match dropLit (" ".data) (l1.dropWhile Char.isDigit) with
        | none => none
        | some l2 =>
          match recvAfter l2 with
          | none => none
          | some l3 =>
            match scanLossTail l3 with
            | none => none
            | some (dl, fl) => some (d1, d2, dl, fl)

/-- `re.search` of the packet-loss pattern: leftmost starting position
wins. -/
def searchLossRaw : List Char → Option (List Char × List Char × List Char × Option (List Char))
  | [] => none
  | c :: rest =>
    match lossAt (c :: rest) with
    | some v => some v
    | none => searchLossRaw rest

/-- The packet-loss search with the source's conversions applied:
`int(group(1))`, `int(group(2))`, `float(group(3))`. -/
def searchLoss (l : List Char) : Option (Nat × Nat × ℚ) :=
  (searchLossRaw l).map fun cap =>
    (natOfDigits cap.1, natOfDigits cap.2.1, decVal cap.2.2.1 cap.2.2.2)

/-- Match `(\d+(?:\.\d+)?)/(\d+(?:\.\d+)?)/(\d+(?:\.\d+)?)` anchored at
the head of `l` (see `numAt` for why greedy-only is faithful). -/
def rttAt (l : List Char) :
    Option ((List Char × Option (List Char)) × (List Char × Option (List Char)) × (List Char × Option (List Char))) :=
  match numAt l with
  | none => none
  | some (cap1, r1) =>
    match r1 with
    | '/' :: r2 =>
      match numAt r2 with
      | none => none
      | some (cap2, r3) =>
        match r3 with
        | '/' :: r4 =>
          match numAt r4 with
          | none => none
          | some (cap3, _) => some (cap1, cap2, cap3)
        | _ => none
    | _ => none

/-- `re.search` of the rtt triple pattern: leftmost starting position
wins. -/
def searchRttRaw : List Char → Option ((List Char × Option (List Char)) × (List Char × Option (List Char)) × (List Char × Option (List Char)))
  | [] => none
  | c :: rest =>
    match rttAt (c :: rest) with
    | some v => some v
    | none => searchRttRaw rest

/-- The rtt search with `float(...)` applied to the three captures. -/
def searchRtt (l : List Char) : Option (ℚ × ℚ × ℚ) :=
  (searchRttRaw l).map fun cap =>
    (decVal cap.1.1 cap.1.2, decVal cap.2.1.1 cap.2.1.2, decVal cap.2.2.1 cap.2.2.2)

/-- The text after the last occurrence of `sep` in `l`, or `none` when
`sep` does not occur.  `"min/avg/max"` has no non-trivial period, so its
occurrences cannot overlap and Python's left-to-right
`output.split(sep)[-1]` equals the text after the rightmost occurrence. -/
def afterLast (sep : List Char) : List Char → Option (List Char)
  | [] => dropLit sep []
  | c :: rest =>
    match afterLast sep rest with
    | some r => some r
    | none => dropLit sep (c :: rest)

/-- `output.split("min/avg/max")[-1] if "min/avg/max" in output else ""`
from `_parse_ping_output`. -/
def rttSearchText (output : List Char) : List Char :=
  match afterLast ("min/avg/max".data) output with
  | some t => t
  | none => []

/-- Python `str.strip()` (whitespace from both ends). -/
def stripEnds (l : List Char) : List Char :=
  ((l.dropWhile pyIsSpace).reverse.dropWhile pyIsSpace).reverse

/-- The index of the `')'` matched by `\)` after the greedy `(\S+)` that
starts inside the parentheses: the greedy group shrinks from the maximal
non-space run `w`, so `\)` lands on the last `')'` in `w`, and at least
one captured character must precede it. -/
def lastParenIdx (w : List Char) : Option Nat :=
  match w.reverse.findIdx? (fun c => c = ')') with
  | some j =>
    let k := w.length - 1 - j
    if 1 ≤ k then some k else none
  | none => none

/-- First alternative `(\S+)\s+\((\S+)\)` of the hop pattern, anchored at
the head of `l`: returns group 3 (the text inside the parentheses) and
the remainder after the closing `')'`.  The greedy `(\S+)` and `\s+`
cannot usefully backtrack (shrinking leaves a non-space where `\s` is
required, or a space where `\(` is required). -/
def firstAlt (l : List Char) : Option (List Char × List Char) :=
  let t1 := l.takeWhile (fun c => !pyIsSpace c)
  if t1.isEmpty then none
  else
    let l1 := l.dropWhile (fun c => !pyIsSpace c)
    if (l1.takeWhile pyIsSpace).isEmpty then none
    else
      match l1.dropWhile pyIsSpace with
      | '(' :: l2 =>
        let w := l2.takeWhile (fun c => !pyIsSpace c)
        match lastParenIdx w with
        | some k => some (w.take k, l2.drop (k + 1))
        | none => none
      | _ => none

/-- The `.*?(?:(\d+(?:\.\d+)?)\s*ms)?` tail of the hop pattern.  The lazy
`.*?` starts at length zero and the trailing group is optional, so the
whole tail always succeeds immediately: the latency group captures only
when `(\d+(?:\.\d+)?)\s*ms` matches at the current position itself, and
is `None` otherwise.  (This is why the source never attaches a latency to
a hop parsed from a typical line, where a space separates the `')'` from
the latency.) -/
def latencyCapAt (l : List Char) : Option (List Char × Option (List Char)) :=
  match numAt l with
  | none => none
  | some (cap, r) =>
    match dropLit ("ms".data) (r.dropWhile pyIsSpace) with
    | some _ => some cap
    | none => none

/-- One line against the hop pattern
`\s*(\d+)\s+(?:(\S+)\s+\((\S+)\)|(\*)).*?(?:(\d+(?:\.\d+)?)\s*ms)?`
via `re.match`, followed by the source's group logic:
`ip = group(3) or group(2)`; `"*"` when the ip is falsy or `"*"`;
`latency_ms` set to `float(group(5))` only when group 5 captured. -/
def hopLineParse (l : List Char) : Option Hop :=
  let l0 := l.dropWhile pyIsSpace
  let d := l0.takeWhile Char.isDigit
  if d.isEmpty then none
  else
    let l1 := l0.dropWhile Char.isDigit
    if (l1.takeWhile pyIsSpace).isEmpty then none
    else
      let l2 := l1.dropWhile pyIsSpace
      match firstAlt l2 with
      | some (ipTok, rest) =>
        some { hop := natOfDigits d,
               ip := if ipTok ≠ [] ∧ ipTok ≠ ['*'] then String.mk ipTok else "*",
               latency_ms := (latencyCapAt rest).map fun cap => decVal cap.1 cap.2 }
      | none =>
        match l2 with
        | '*' :: rest =>
          some { hop := natOfDigits d, ip := "*",
                 latency_ms := (latencyCapAt rest).map fun cap => decVal cap.1 cap.2 }
        | _ => none

/-- `sorted({info[4][0] for info in infos})`: the distinct addresses in
lexicographic order. -/
def sortedAddresses (infos : List String) : List String :=
  List.insertionSort (· ≤ ·) infos.dedup

namespace NetworkAdapter

/-- `NetworkAdapter._parse_ping_output`.  The source initialises a
defaults dict (`packets_sent = count`, `packets_received = 0`,
`packet_loss_percent = 100.0`, latencies `0.0`) and overwrites the
corresponding field group when each of the two independent regex
searches matches; the four cases enumerate those two conditions. -/
def _parse_ping_output (host : String) (count : Nat) (output : String) : PingResult :=
  match searchLoss output.data, searchRtt (rttSearchText output.data) with
  | some (s, r, lossPct), some (mn, av, mx) =>
    { host := host, packets_sent := s, packets_received := r,
      packet_loss_percent := lossPct, avg_latency_ms := av,
      min_latency_ms := mn, max_latency_ms := mx }
  | some (s, r, lossPct), none =>
    { host := host, packets_sent := s, packets_received := r,
      packet_loss_percent := lossPct, avg_latency_ms := 0,
      min_latency_ms := 0, max_latency_ms := 0 }
  | none, some (mn, av, mx) =>
    { host := host, packets_sent := count, packets_received := 0,
      packet_loss_percent := 100, avg_latency_ms := av,
      min_latency_ms := mn, max_latency_ms := mx }
  | none, none =>
    { host := host, packets_sent := count, packets_received := 0,
      packet_loss_percent := 100, avg_latency_ms := 0,
      min_latency_ms := 0, max_latency_ms := 0 }

/-- `NetworkAdapter._parse_traceroute_output`: strip, split into lines,
drop the header line, keep the lines the hop pattern matches.  (The
source splits with `str.splitlines`; the inputs here contain only `'\n'`
line boundaries, which is the case modelled.) -/
def _parse_traceroute_output (host : String) (max_hops : Nat) (output : String) : TracerouteResult :=
  let ls := (stripEnds output.data).splitOn '\n'
  { host := host, max_hops := max_hops,
    hops := (ls.drop 1).filterMap hopLineParse,
    error := none }

/-- `NetworkAdapter._mock_ping`. -/
def _mock_ping (host : String) (count : Nat) : PingResult :=
  { host := host, packets_sent := count, packets_received := count,
    packet_loss_percent := 0, avg_latency_ms := 1.23,
    min_latency_ms := 0.89, max_latency_ms := 2.15 }

/-- `NetworkAdapter._mock_dns_lookup`. -/
def _mock_dns_lookup (hostname record_type : String) : DnsResult :=
  { hostname := hostname, record_type := record_type,
    addresses := ["93.184.216.34"], error := none }

/-- `NetworkAdapter._mock_traceroute`. -/
def _mock_traceroute (host : String) (max_hops : Nat) : TracerouteResult :=
  { host := host, max_hops := max_hops,
    hops := [ { hop := 1, ip := "192.168.1.1", latency_ms := some 1.2 },
              { hop := 2, ip := "10.0.0.1", latency_ms := some 5.4 },
              { hop := 3, ip := host, latency_ms := some 12.8 } ],
    error := none }

/-- `NetworkAdapter.ping`, with the subprocess behaviour supplied as
`exec`. -/
def ping (mock_mode : Bool) (host : String) (count : Nat) (exec : ExecOutcome) :
    Except HTTPException PingResult :=
  match _validate_host host with
  | some e => .error e
  | none =>
    if mock_mode then .ok (_mock_ping host count)
    else
      match exec with
      | .success out => .ok (_parse_ping_output host count out)
      | .timeout =>
        .ok { host := host, packets_sent := count, packets_received := 0,
              packet_loss_percent := 100, avg_latency_ms := 0,
              min_latency_ms := 0, max_latency_ms := 0 }
      | .failure => .ok (_mock_ping host count)

/-- `NetworkAdapter.dns_lookup`, with the resolver behaviour supplied as
`res`. -/
def dns_lookup (mock_mode : Bool) (hostname record_type : String) (res : ResolveOutcome) :
    Except HTTPException DnsResult :=
  match _validate_host hostname with
  | some e => .error e
  | none =>
    if mock_mode then .ok (_mock_dns_lookup hostname record_type)
    else
      match res with
      | .success infos =>
        .ok { hostname := hostname, record_type := record_type,
              addresses := sortedAddresses infos, error := none }
      | .gaierror msg =>
        .ok { hostname := hostname, record_type := record_type,
              addresses := [], error := some msg }

/-- `NetworkAdapter.traceroute`, with the subprocess behaviour supplied
as `exec`. -/
def traceroute (mock_mode : Bool) (host : String) (max_hops : Nat) (exec : ExecOutcome) :
    Except HTTPException TracerouteResult :=
  match _validate_host host with
  | some e => .error e
  | none =>
    if mock_mode then .ok (_mock_traceroute host max_hops)
    else
      match exec with
      | .success out => .ok (_parse_traceroute_output host max_hops out)
      | .timeout =>
        .ok { host := host, max_hops := max_hops, hops := [],
              error := some "timeout" }
      | .failure => .ok (_mock_traceroute host max_hops)

end NetworkAdapter

/-! ### Helper lemmas -/

theorem decVal_none (d : List Char) : decVal d none = (natOfDigits d : ℚ) := by
  simp [decVal]

theorem decVal_some (d fd : List Char) :
    decVal d (some fd) = (natOfDigits d : ℚ) + (natOfDigits fd : ℚ) / (10 : ℚ) ^ fd.length := by
  simp [decVal]

/-- Shape of any string accepted by the host regex: a non-empty run of
allowed characters, optionally followed by one trailing newline
(Python `$` semantics). -/
theorem validHostMatch_shape {s : String} (h : validHostMatch s = true) :
    s.data ≠ [] ∧
      ((∀ c ∈ s.data, isAllowedHostChar c = true) ∨
        ∃ body, s.data = body ++ ['\n'] ∧ body ≠ [] ∧
          ∀ c ∈ body, isAllowedHostChar c = true) := by
  unfold validHostMatch at h
  rw [Bool.and_eq_true, Bool.or_eq_true] at h
  obtain ⟨h1, h2⟩ := h
  have hrun : s.data.takeWhile isAllowedHostChar ≠ [] := by
    simpa using h1
  have hsplit : s.data.takeWhile isAllowedHostChar ++ s.data.dropWhile isAllowedHostChar = s.data :=
    List.takeWhile_append_dropWhile isAllowedHostChar s.data
  constructor
  · intro hnil
    exact hrun (by rw [hnil]; rfl)
  · rcases h2 with h2 | h2
    · left
      have hrest : s.data.dropWhile isAllowedHostChar = [] := by
        simpa using h2
      intro c hcmem
      have hctw : c ∈ s.data.takeWhile isAllowedHostChar := by
        rw [← hsplit, hrest, List.append_nil] at hcmem
        exact hcmem
      exact List.mem_takeWhile_imp hctw
    · right
      have hrest : s.data.dropWhile isAllowedHostChar = ['\n'] := by
        simpa using h2
      exact ⟨s.data.takeWhile isAllowedHostChar, by rw [← hrest]; exact hsplit.symm, hrun,
        fun c hc => List.mem_takeWhile_imp hc⟩

/-! ### Claim theorems -/

/-- C1: any host containing one of the shell metacharacters `;`, `|`,
`$`, a backtick, or a space is rejected by all three entry points with
the single invalid-host error (HTTP 400), in mock and non-mock mode
alike, and regardless of the behaviour of the external process or
resolver — i.e. before any other operation can contribute to the
result. -/
theorem metachar_rejected_before_any_operation (host : String) (c : Char)
    (hc : c ∈ host.data)
    (hbad : c = ';' ∨ c = '|' ∨ c = '$' ∨ c = '\x60' ∨ c = ' ') :
    ∀ (mock : Bool) (count max_hops : Nat) (record_type : String)
      (e1 e2 : ExecOutcome) (r : ResolveOutcome),
      NetworkAdapter.ping mock host count e1 = .error invalidHostError
      ∧ NetworkAdapter.dns_lookup mock host record_type r = .error invalidHostError
      ∧ NetworkAdapter.traceroute mock host max_hops e2 = .error invalidHostError := by
  have hnotallowed : isAllowedHostChar c = false := by
    rcases hbad with rfl | rfl | rfl | rfl | rfl <;> decide
  have hnotnl : c ≠ '\n' := by
    rcases hbad with rfl | rfl | rfl | rfl | rfl <;> decide
  have hv : validHostMatch host = false := by
    by_contra hne
    have ht : validHostMatch host = true := by
      cases hb : validHostMatch host
      · exact absurd hb hne
      · rfl
    obtain ⟨-, hall | ⟨body, hb, -, hallb⟩⟩ := validHostMatch_shape ht
    · rw [hall c hc] at hnotallowed
      exact Bool.true_eq_false.mp hnotallowed
    · rw [hb] at hc
      rcases List.mem_append.1 hc with hcb | hcn
      · rw [hallb c hcb] at hnotallowed
        exact Bool.true_eq_false.mp hnotallowed
      · exact hnotnl (by simpa using hcn)
  intro mock count max_hops record_type e1 e2 r
  refine ⟨?_, ?_, ?_⟩
  · simp [NetworkAdapter.ping, _validate_host, hv]
  · simp [NetworkAdapter.dns_lookup, _validate_host, hv]
  · simp [NetworkAdapter.traceroute, _validate_host, hv]

theorem metachar_rejected_before_any_operation_witness :
    NetworkAdapter.ping false "a b" 4 .timeout = .error invalidHostError
    ∧ NetworkAdapter.dns_lookup false "a b" "A" (.gaierror "x") = .error invalidHostError
    ∧ NetworkAdapter.traceroute false "a b" 20 .failure = .error invalidHostError :=
  metachar_rejected_before_any_operation "a b" ' ' (by decide)
    (Or.inr (Or.inr (Or.inr (Or.inr rfl)))) false 4 20 "A" .timeout .failure (.gaierror "x")

/-- C2 counterexample: the claim says every accepted host consists only
of characters from `[A-Za-z0-9._-]`, but the string `"a\n"` is accepted
by `_validate_host` (Python `$` also matches before a single trailing
newline) while containing `'\n'`. -/
theorem trailing_newline_host_accepted :
    _validate_host "a\n" = none
    ∧ ¬ (∀ c ∈ ("a\n").data, isAllowedHostChar c = true) := by
  constructor
  · decide
  · intro hall
    exact absurd (hall '\n' (by decide)) (by decide)

/-- C2 (amended): every host accepted by validation is non-empty and
consists only of allow-listed characters `[A-Za-z0-9._-]`, except that a
single trailing newline after a non-empty allowed run is also accepted
(Python `re.match` with `$` semantics). -/
theorem accepted_host_charset (host : String) (h : _validate_host host = none) :
    host.data ≠ [] ∧
      ((∀ c ∈ host.data, isAllowedHostChar c = true) ∨
        ∃ body, host.data = body ++ ['\n'] ∧ body ≠ [] ∧
          ∀ c ∈ body, isAllowedHostChar c = true) := by
  have hv : validHostMatch host = true := by
    by_contra hne
    have hf : validHostMatch host = false := by
      cases hb : validHostMatch host
      · rfl
      · exact absurd hb hne
    simp [_validate_host, hf] at h
  exact validHostMatch_shape hv

theorem accepted_host_charset_witness :
    ("a.b-c").data ≠ [] ∧
      ((∀ c ∈ ("a.b-c").data, isAllowedHostChar c = true) ∨
        ∃ body, ("a.b-c").data = body ++ ['\n'] ∧ body ≠ [] ∧
          ∀ c ∈ body, isAllowedHostChar c = true) :=
  accepted_host_charset "a.b-c" (by decide)

/-- C3 (code evaluation): on the literal line
`" 1  192.168.1.1 (192.168.1.1)  1.234 ms"` the traceroute parser
produces the hop entry WITHOUT a `latency_ms` key — the pattern's lazy
`.*?` followed by an optional latency group never captures a latency
separated from the `')'` by whitespace — while a bare `*` hop line
produces `{hop, ip := "*"}` as the claim states. -/
theorem traceroute_parse_literal_line :
    NetworkAdapter._parse_traceroute_output "example.com" 20
      "traceroute to example.com (93.184.216.34), 20 hops max\n 1  192.168.1.1 (192.168.1.1)  1.234 ms\n 2  * * *"
    = { host := "example.com", max_hops := 20,
        hops := [ { hop := 1, ip := "192.168.1.1", latency_ms := none },
                  { hop := 2, ip := "*", latency_ms := none } ],
        error := none } := by
  decide

/-- C4 counterexample: with the packet-loss pattern absent (empty
output) and `count = 4`, the parsed result has
`packet_loss_percent = 100` and `packets_sent = 4` — not the zero
defaults the claim states. -/
theorem missing_loss_pattern_not_zero_defaults :
    searchLoss (String.data "") = none
    ∧ (NetworkAdapter._parse_ping_output "h" 4 "").packet_loss_percent = 100
    ∧ (NetworkAdapter._parse_ping_output "h" 4 "").packets_sent = 4
    ∧ ¬ ((100 : ℚ) = 0)
    ∧ ¬ ((4 : Nat) = 0) := by
  decide

/-- C4 (amended): when the packet-loss pattern is absent the parsed
result keeps `packets_sent = count`, `packets_received = 0` and
`packet_loss_percent = 100` (not zero); when the min/avg/max rtt pattern
is absent the three latency fields are `0`. -/
theorem ping_parse_missing_pattern_defaults (host : String) (count : Nat) (output : String) :
    (searchLoss output.data = none →
      (NetworkAdapter._parse_ping_output host count output).packets_sent = count
      ∧ (NetworkAdapter._parse_ping_output host count output).packets_received = 0
      ∧ (NetworkAdapter._parse_ping_output host count output).packet_loss_percent = 100)
    ∧ (searchRtt (rttSearchText output.data) = none →
      (NetworkAdapter._parse_ping_output host count output).min_latency_ms = 0
      ∧ (NetworkAdapter._parse_ping_output host count output).avg_latency_ms = 0
      ∧ (NetworkAdapter._parse_ping_output host count output).max_latency_ms = 0) := by
  unfold NetworkAdapter._parse_ping_output
  rcases hL : searchLoss output.data with _ | ⟨s, r, lossPct⟩ <;>
    rcases hR : searchRtt (rttSearchText output.data) with _ | ⟨mn, av, mx⟩ <;>
    simp [hL, hR]

theorem ping_parse_missing_pattern_defaults_witness :
    (NetworkAdapter._parse_ping_output "h" 4 "xyz").packets_sent = 4
    ∧ (NetworkAdapter._parse_ping_output "h" 4 "xyz").packets_received = 0
    ∧ (NetworkAdapter._parse_ping_output "h" 4 "xyz").packet_loss_percent = 100
    ∧ (NetworkAdapter._parse_ping_output "h" 4 "xyz").min_latency_ms = 0
    ∧ (NetworkAdapter._parse_ping_output "h" 4 "xyz").avg_latency_ms = 0
    ∧ (NetworkAdapter._parse_ping_output "h" 4 "xyz").max_latency_ms = 0 := by
  have hL : searchLoss (String.data "xyz") = none := by
    have hraw : searchLossRaw (String.data "xyz") = none := by decide
    simp [searchLoss, hraw]
  have hR : searchRtt (rttSearchText (String.data "xyz")) = none := by
    have hraw : searchRttRaw (rttSearchText (String.data "xyz")) = none := by decide
    simp [searchRtt, hraw]
  obtain ⟨f1, f2⟩ := ping_parse_missing_pattern_defaults "h" 4 "xyz"
  obtain ⟨a1, a2, a3⟩ := f1 hL
  obtain ⟨b1, b2, b3⟩ := f2 hR
  exact ⟨a1, a2, a3, b1, b2, b3⟩

/-- C5: the ping parser on the literal output text yields
`{sent 4, received 4, loss 0, min 0.89, avg 1.23, max 2.15}`, and the
`"4 packets received"` platform variant parses identically. -/
theorem ping_parse_literal_and_variant :
    NetworkAdapter._parse_ping_output "example.com" 4
      "4 packets transmitted, 4 received, 0% packet loss\nrtt min/avg/max/mdev = 0.89/1.23/2.15/0.42 ms"
    = { host := "example.com", packets_sent := 4, packets_received := 4,
        packet_loss_percent := 0, avg_latency_ms := 1.23,
        min_latency_ms := 0.89, max_latency_ms := 2.15 }
    ∧ NetworkAdapter._parse_ping_output "example.com" 4
      "4 packets transmitted, 4 packets received, 0% packet loss\nrtt min/avg/max/mdev = 0.89/1.23/2.15/0.42 ms"
    = { host := "example.com", packets_sent := 4, packets_received := 4,
        packet_loss_percent := 0, avg_latency_ms := 1.23,
        min_latency_ms := 0.89, max_latency_ms := 2.15 } := by
  have h4 : natOfDigits ['4'] = 4 := by decide
  have h0 : natOfDigits ['0'] = 0 := by decide
  have h89 : natOfDigits ['8', '9'] = 89 := by decide
  have h1d : natOfDigits ['1'] = 1 := by decide
  have h23 : natOfDigits ['2', '3'] = 23 := by decide
  have h2d : natOfDigits ['2'] = 2 := by decide
  have h15 : natOfDigits ['1', '5'] = 15 := by decide
  have hv0 : decVal ['0'] none = 0 := by
    rw [decVal_none, h0]; norm_num
  have hv089 : decVal ['0'] (some ['8', '9']) = 0.89 := by
    rw [decVal_some, h0, h89]; norm_num
  have hv123 : decVal ['1'] (some ['2', '3']) = 1.23 := by
    rw [decVal_some, h1d, h23]; norm_num
  have hv215 : decVal ['2'] (some ['1', '5']) = 2.15 := by
    rw [decVal_some, h2d, h15]; norm_num
  constructor
  · have hraw : searchLossRaw (String.data
        "4 packets transmitted, 4 received, 0% packet loss\nrtt min/avg/max/mdev = 0.89/1.23/2.15/0.42 ms")
        = some (['4'], ['4'], ['0'], none) := by decide
    have hrtt : searchRttRaw (rttSearchText (String.data
        "4 packets transmitted, 4 received, 0% packet loss\nrtt min/avg/max/mdev = 0.89/1.23/2.15/0.42 ms"))
        = some ((['0'], some ['8', '9']), (['1'], some ['2', '3']), (['2'], some ['1', '5'])) := by decide
    have hL : searchLoss (String.data
        "4 packets transmitted, 4 received, 0% packet loss\nrtt min/avg/max/mdev = 0.89/1.23/2.15/0.42 ms")
        = some (4, 4, 0) := by
      simp [searchLoss, hraw, h4, hv0]
    have hR : searchRtt (rttSearchText (String.data
        "4 packets transmitted, 4 received, 0% packet loss\nrtt min/avg/max/mdev = 0.89/1.23/2.15/0.42 ms"))
        = some (0.89, 1.23, 2.15) := by
      simp [searchRtt, hrtt, hv089, hv123, hv215]
    unfold NetworkAdapter._parse_ping_output
    rw [hL, hR]
  · have hraw : searchLossRaw (String.data
        "4 packets transmitted, 4 packets received, 0% packet loss\nrtt min/avg/max/mdev = 0.89/1.23/2.15/0.42 ms")
        = some (['4'], ['4'], ['0'], none) := by decide
    have hrtt : searchRttRaw (rttSearchText (String.data
        "4 packets transmitted, 4 packets received, 0% packet loss\nrtt min/avg/max/mdev = 0.89/1.23/2.15/0.42 ms"))
        = some ((['0'], some ['8', '9']), (['1'], some ['2', '3']), (['2'], some ['1', '5'])) := by decide
    have hL : searchLoss (String.data
        "4 packets transmitted, 4 packets received, 0% packet loss\nrtt min/avg/max/mdev = 0.89/1.23/2.15/0.42 ms")
        = some (4, 4, 0) := by
      simp [searchLoss, hraw, h4, hv0]
    have hR : searchRtt (rttSearchText (String.data
        "4 packets transmitted, 4 packets received, 0% packet loss\nrtt min/avg/max/mdev = 0.89/1.23/2.15/0.42 ms"))
        = some (0.89, 1.23, 2.15) := by
      simp [searchRtt, hrtt, hv089, hv123, hv215]
    unfold NetworkAdapter._parse_ping_output
    rw [hL, hR]

/-- C6: for a valid host, a timed-out ping invocation returns (never
raises) the 100%-loss zero-latency result with `packets_sent = count`,
and any other invocation failure returns the mock ping result. -/
theorem ping_timeout_and_failure_fallback (host : String) (count : Nat)
    (h : validHostMatch host = true) :
    NetworkAdapter.ping false host count .timeout
      = .ok { host := host, packets_sent := count, packets_received := 0,
              packet_loss_percent := 100, avg_latency_ms := 0,
              min_latency_ms := 0, max_latency_ms := 0 }
    ∧ NetworkAdapter.ping false host count .failure
      = .ok (NetworkAdapter._mock_ping host count) := by
  constructor
  · simp [NetworkAdapter.ping, _validate_host, h]
  · simp [NetworkAdapter.ping, _validate_host, h]

theorem ping_timeout_and_failure_fallback_witness :
    NetworkAdapter.ping false "example.com" 4 .timeout
      = .ok { host := "example.com", packets_sent := 4, packets_received := 0,
              packet_loss_percent := 100, avg_latency_ms := 0,
              min_latency_ms := 0, max_latency_ms := 0 }
    ∧ NetworkAdapter.ping false "example.com" 4 .failure
      = .ok (NetworkAdapter._mock_ping "example.com" 4) :=
  ping_timeout_and_failure_fallback "example.com" 4 (by decide)

/-- C7: for a valid host, a timed-out traceroute invocation returns
(never raises) `{hops := [], error := "timeout"}`, any other failure
returns the mock traceroute data, and that mock data has the three
canned hops numbered 1, 2, 3 with the last hop's ip equal to the host. -/
theorem traceroute_timeout_and_fallback (host : String) (max_hops : Nat)
    (h : validHostMatch host = true) :
    NetworkAdapter.traceroute false host max_hops .timeout
      = .ok { host := host, max_hops := max_hops, hops := [], error := some "timeout" }
    ∧ NetworkAdapter.traceroute false host max_hops .failure
      = .ok (NetworkAdapter._mock_traceroute host max_hops)
    ∧ (NetworkAdapter._mock_traceroute host max_hops).hops.map Hop.hop = [1, 2, 3]
    ∧ ((NetworkAdapter._mock_traceroute host max_hops).hops.map Hop.ip).getLast? = some host := by
  refine ⟨?_, ?_, ?_, ?_⟩
  · simp [NetworkAdapter.traceroute, _validate_host, h]
  · simp [NetworkAdapter.traceroute, _validate_host, h]
  · simp [NetworkAdapter._mock_traceroute]
  · simp [NetworkAdapter._mock_traceroute]

theorem traceroute_timeout_and_fallback_witness :
    NetworkAdapter.traceroute false "example.com" 20 .timeout
      = .ok { host := "example.com", max_hops := 20, hops := [], error := some "timeout" }
    ∧ NetworkAdapter.traceroute false "example.com" 20 .failure
      = .ok (NetworkAdapter._mock_traceroute "example.com" 20)
    ∧ (NetworkAdapter._mock_traceroute "example.com" 20).hops.map Hop.hop = [1, 2, 3]
    ∧ ((NetworkAdapter._mock_traceroute "example.com" 20).hops.map Hop.ip).getLast? = some "example.com" :=
  traceroute_timeout_and_fallback "example.com" 20 (by decide)

/-- C8: a successful non-mock dns_lookup returns the resolver's
addresses deduplicated and sorted strictly increasingly (lexicographic
string order), whatever the order and multiplicity the resolver
produced; the address set is exactly the resolver's. -/
theorem dns_lookup_addresses_sorted_nodup (hostname record_type : String)
    (infos : List String) (h : validHostMatch hostname = true) :
    NetworkAdapter.dns_lookup false hostname record_type (.success infos)
      = .ok { hostname := hostname, record_type := record_type,
              addresses := sortedAddresses infos, error := none }
    ∧ (sortedAddresses infos).Sorted (· < ·)
    ∧ (sortedAddresses infos).toFinset = infos.toFinset := by
  refine ⟨?_, ?_, ?_⟩
  · simp [NetworkAdapter.dns_lookup, _validate_host, h]
  · have hs : (sortedAddresses infos).Sorted (· ≤ ·) :=
      List.sorted_insertionSort _ _
    have hn : (sortedAddresses infos).Nodup :=
      ((List.perm_insertionSort _ _).nodup_iff).2 (List.nodup_dedup infos)
    exact hs.lt_of_le hn
  · calc (sortedAddresses infos).toFinset
        = infos.dedup.toFinset :=
          List.toFinset_eq_of_perm _ _ (List.perm_insertionSort _ _)
      _ = infos.toFinset := by
          rw [List.toFinset_eq_iff_perm_dedup, List.dedup_idem]

theorem dns_lookup_addresses_sorted_nodup_witness :
    NetworkAdapter.dns_lookup false "example.com" "A" (.success ["b", "a", "b"])
      = .ok { hostname := "example.com", record_type := "A",
              addresses := sortedAddresses ["b", "a", "b"], error := none }
    ∧ (sortedAddresses ["b", "a", "b"]).Sorted (· < ·)
    ∧ (sortedAddresses ["b", "a", "b"]).toFinset = (["b", "a", "b"] : List String).toFinset :=
  dns_lookup_addresses_sorted_nodup "example.com" "A" ["b", "a", "b"] (by decide)

/-- C9: for a valid hostname, a resolution failure makes dns_lookup
return (never raise) a well-formed result with the hostname, the record
type, an empty address list and the error message. -/
theorem dns_lookup_failure_returns_error_result (hostname record_type msg : String)
    (h : validHostMatch hostname = true) :
    NetworkAdapter.dns_lookup false hostname record_type (.gaierror msg)
      = .ok { hostname := hostname, record_type := record_type,
              addresses := [], error := some msg } := by
  simp [NetworkAdapter.dns_lookup, _validate_host, h]

theorem dns_lookup_failure_returns_error_result_witness :
    NetworkAdapter.dns_lookup false "example.com" "AAAA" (.gaierror "Name or service not known")
      = .ok { hostname := "example.com", record_type := "AAAA",
              addresses := [], error := some "Name or service not known" } :=
  dns_lookup_failure_returns_error_result "example.com" "AAAA" "Name or service not known" (by decide)

/-- C10: when the packet-loss pattern matches, the numbers parsed from
the output override the `count` argument: `packets_sent` and
`packets_received` come from the text, as does the loss percentage. -/
theorem ping_parse_loss_overrides_count (host : String) (count : Nat) (output : String)
    (s r : Nat) (lossPct : ℚ) (h : searchLoss output.data = some (s, r, lossPct)) :
    (NetworkAdapter._parse_ping_output host count output).packets_sent = s
    ∧ (NetworkAdapter._parse_ping_output host count output).packets_received = r
    ∧ (NetworkAdapter._parse_ping_output host count output).packet_loss_percent = lossPct := by
  unfold NetworkAdapter._parse_ping_output
  rw [h]
  rcases hR : searchRtt (rttSearchText output.data) with _ | ⟨mn, av, mx⟩ <;> simp

theorem ping_parse_loss_overrides_count_witness :
    (NetworkAdapter._parse_ping_output "h" 4
        "7 packets transmitted, 3 received, 57% packet loss").packets_sent = 7
    ∧ (NetworkAdapter._parse_ping_output "h" 4
        "7 packets transmitted, 3 received, 57% packet loss").packets_received = 3
    ∧ (NetworkAdapter._parse_ping_output "h" 4
        "7 packets transmitted, 3 received, 57% packet loss").packet_loss_percent = 57 := by
  have hraw : searchLossRaw (String.data "7 packets transmitted, 3 received, 57% packet loss")
      = some (['7'], ['3'], ['5', '7'], none) := by decide
  have h7 : natOfDigits ['7'] = 7 := by decide
  have h3 : natOfDigits ['3'] = 3 := by decide
  have h57 : natOfDigits ['5', '7'] = 57 := by decide
  have hv57 : decVal ['5', '7'] none = 57 := by
    rw [decVal_none, h57]; norm_num
  have h : searchLoss (String.data "7 packets transmitted, 3 received, 57% packet loss")
      = some (7, 3, 57) := by
    simp [searchLoss, hraw, h7, h3, hv57]
  exact ping_parse_loss_overrides_count "h" 4
    "7 packets transmitted, 3 received, 57% packet loss" 7 3 57 h
